import Mathlib

/-!
Verification of the Slack MCP server (files `slack_api.py` and
`slack-mcp_server.py`) against its natural-language specification.

The development shallowly embeds the Python code:

* HTTP transport is abstracted as an oracle: a client method that performs a
  round trip is a function of the request data it sends, and a tool that calls
  a client method takes the outcome of that call (`Except String payload`,
  where `error` models a raised Python exception carrying its message).
* Python dicts that cross the boundary are embedded as structures whose fields
  are `Option`-valued where the code uses `dict.get`.
* Python `int` is `Int`; percentage arithmetic is carried out in `ℚ`.
* Character classes model Python's regex classes on the character repertoire
  exercised by this repository (ASCII and Hangul syllables); Python's `\w` and
  `str.lower` additionally cover further Unicode letters, which occur neither
  in the stop-word set nor in any input of the properties below.
-/

/-! ## Character classes and the tokenizer (`_extract_words_from_text`) -/

/-- Model of Python's regex class `\s` (and of the whitespace class used by
`str.split()` with no argument). -/
def pySpace (c : Char) : Bool := c.isWhitespace

/-- Model of Python's regex class `\w`: alphanumeric characters or underscore. -/
def pyWordChar (c : Char) : Bool := c.isAlphanum || c == '_'

/-- The explicit range `가-힣` (Hangul syllables U+AC00 – U+D7A3) of the
tokenizer's first regex. -/
def isHangulSyllable (c : Char) : Bool :=
  0xAC00 ≤ c.toNat && c.toNat ≤ 0xD7A3

/-- One character step of `re.sub(r'[^\w\s가-힣]', ' ', text)`: every character
outside the class `[\w\s가-힣]` is replaced by a space. -/
def sub_nonword (c : Char) : Char :=
  if pyWordChar c || pySpace c || isHangulSyllable c then c else ' '

/-- `re.sub(r'\s+', ' ', text)`: every maximal run of whitespace is replaced by
a single space.  The boolean flag records whether the previous character
belonged to a whitespace run. -/
def collapseWs : List Char → Bool → List Char
  | [], _ => []
  | c :: cs, inRun =>
      if pySpace c then
        if inRun then collapseWs cs true else ' ' :: collapseWs cs true
      else c :: collapseWs cs false

/-- Worker for `str.split()` with no argument: split on whitespace runs,
dropping empty fragments; `cur` accumulates the current fragment reversed. -/
def splitWsAux : List Char → List Char → List String
  | [], cur => if cur == [] then [] else [⟨cur.reverse⟩]
  | c :: cs, cur =>
      if pySpace c then
        (if cur == [] then [] else [(⟨cur.reverse⟩ : String)]) ++ splitWsAux cs []
      else splitWsAux cs (c :: cur)

/-- Python `str.split()` with no argument. -/
def pySplit (l : List Char) : List String := splitWsAux l []

/-- The tokenizing pipeline of `_extract_words_from_text`:
`re.sub(r'[^\w\s가-힣]', ' ', text)`, then `re.sub(r'\s+', ' ', text)`, then
`text.lower().split()`. -/
def tokenize (text : String) : List String :=
  pySplit ((collapseWs (text.data.map sub_nonword) false).map Char.toLower)

/-- The hardcoded bilingual stop-word set of `_extract_words_from_text`. -/
def stop_words : List String :=
  ["의", "가", "이", "은", "는", "을", "를", "에", "에서", "으로", "로",
   "과", "와", "한", "하는", "하고", "해서", "하여", "하면", "됩니다",
   "있습니다", "입니다", "그", "그런", "이런", "저런", "것", "수", "등",
   "the", "a", "an", "and", "or", "but", "in", "on", "at", "to",
   "for", "of", "with", "by", "is", "are", "was", "were", "be",
   "been", "have", "has", "had", "do", "does", "did", "will",
   "would", "could", "should", "may", "might", "can", "this",
   "that", "these", "those", "i", "you", "he", "she", "it",
   "we", "they", "me", "him", "her", "us", "them"]

/-- `_extract_words_from_text`: empty text short-circuits (`if not text`),
otherwise tokenize and keep only words of length at least two that are not
stop-words. -/
def extract_words_from_text (text : String) : List String :=
  if text == "" then []
  else (tokenize text).filter (fun w => 2 ≤ w.length && !(stop_words.contains w))

/-- Modelled from the spec: the character-replacement step as the
specification words it — "replace every character that is not alphanumeric,
underscore, or a Hangul syllable with a space" (so unlike `sub_nonword`,
whitespace characters are replaced by a plain space as well).  Comparison
definition for the tokenizer refinement claim. -/
def spec_replace (c : Char) : Char :=
  if c.isAlphanum || c == '_' || isHangulSyllable c then c else ' '

/-- Modelled from the spec: the tokenizer as the specification words it —
replace every character that is not alphanumeric, underscore, or a Hangul
syllable with a space; collapse repeated whitespace; lower-case; split on
whitespace.  Comparison definition for the tokenizer refinement claim. -/
def spec_tokenize (text : String) : List String :=
  pySplit ((collapseWs (text.data.map spec_replace) false).map Char.toLower)

/-- Two characters are interchangeable for splitting purposes: equal, or both
whitespace. -/
def chRel (c d : Char) : Prop := c = d ∨ (pySpace c = true ∧ pySpace d = true)

/-! ## The history request (`get_channel_history`) -/

/-- The request data `{'channel': channel_id, 'limit': limit}` sent by
`get_channel_history` to the `conversations.history` endpoint. -/
structure HistoryRequest where
  channel : String
  limit : Int
  deriving DecidableEq

/-- `get_channel_history`'s construction of its downstream request: the limit
is silently clamped to at most 100 (`if limit > 100: limit = 100`), with no
lower-bound normalization. -/
def get_channel_history_request (channel_id : String) (limit : Int) : HistoryRequest :=
  ⟨channel_id, if limit > 100 then 100 else limit⟩

/-! ## Messages and the analyzer -/

/-- A Slack message object as consumed by this repository: each field the code
reads via `dict.get` (or tests with `in`) is `Option`-valued, `none` meaning
the key is absent. -/
structure SlackMessage where
  text : Option String
  user : Option String
  ts : Option String
  type : Option String
  bot_id : Option String
  subtype : Option String
  deriving DecidableEq

/-- Python truthiness of an optional string, as tested by
`not message.get('bot_id')`: an absent key and an empty string are both
falsy. -/
def optTruthy : Option String → Bool
  | none => false
  | some s => !s.isEmpty

/-- The message loop of `analyze_channel_word_frequency`: a message contributes
its extracted words when the `text` key is present, its `type` equals
`'message'`, and neither `bot_id` nor `subtype` is truthy. -/
def collect_words : List SlackMessage → List String
  | [] => []
  | m :: rest =>
      (if m.text.isSome && m.type == some "message"
          && !optTruthy m.bot_id && !optTruthy m.subtype
       then extract_words_from_text (m.text.getD "") else [])
      ++ collect_words rest

/-- `collections.Counter(all_words)` as an association list in first-occurrence
order: one fold step. -/
def counter_add (acc : List (String × Nat)) (w : String) : List (String × Nat) :=
  if acc.any (fun p => p.1 == w) then
    acc.map (fun p => if p.1 == w then (p.1, p.2 + 1) else p)
  else acc ++ [(w, 1)]

/-- `collections.Counter(all_words)`: the items of the counter, keyed in
first-occurrence order. -/
def counter_items (ws : List String) : List (String × Nat) :=
  ws.foldl counter_add []

/-- `Counter.most_common()`: the items sorted by count descending; the sort is
stable, so equal counts keep first-occurrence order. -/
def most_common (items : List (String × Nat)) : List (String × Nat) :=
  items.insertionSort (fun a b => b.2 ≤ a.2)

/-- `get_channel_history(channel_id, limit)` against a transport oracle
`fetch` mapping the request actually sent to the message list of the
response. -/
def get_channel_history (fetch : HistoryRequest → List SlackMessage)
    (channel_id : String) (limit : Int) : List SlackMessage :=
  fetch (get_channel_history_request channel_id limit)

/-- `analyze_channel_word_frequency(channel_id, limit)`: clamp `limit` to at
most 1000, fetch `min(limit, 100)` messages through `get_channel_history`,
collect words from plain human messages, count, and rank. -/
def analyze_channel_word_frequency (fetch : HistoryRequest → List SlackMessage)
    (channel_id : String) (limit : Int) : List (String × Nat) :=
  let limit := if limit > 1000 then 1000 else limit
  let messages := get_channel_history fetch channel_id (min limit 100)
  most_common (counter_items (collect_words messages))

/-- Modelled from the spec: `analyze_channel_word_frequency` with its own
`limit > 1000` clamp removed — comparison definition for the refinement claim
that the inner clamp is dead logic. -/
def analyze_channel_word_frequency_noclamp (fetch : HistoryRequest → List SlackMessage)
    (channel_id : String) (limit : Int) : List (String × Nat) :=
  let messages := get_channel_history fetch channel_id (min limit 100)
  most_common (counter_items (collect_words messages))

/-! ## The top-words report (`get_top_words_in_channel`) -/

/-- Floor of a rational, computed from its normalized numerator and
denominator. -/
def ratFloor (q : ℚ) : ℤ := Int.fdiv q.num q.den

/-- Round a rational to the nearest integer, ties to even — the rounding mode
of Python's built-in `round`. -/
def roundHalfEven (q : ℚ) : ℤ :=
  if q - ratFloor q < 1/2 then ratFloor q
  else if q - ratFloor q > 1/2 then ratFloor q + 1
  else if ratFloor q % 2 = 0 then ratFloor q else ratFloor q + 1

/-- Python's `round(x, 2)` on the exact value of `x`.  (Python applies it to a
binary floating-point approximation; for every value arising in the
properties below the approximation error is far below the rounding step, so
the exact-arithmetic model agrees with the float computation.) -/
def round2 (q : ℚ) : ℚ := (roundHalfEven (q * 100) : ℚ) / 100

/-- The `analysis_stats` sub-dictionary of the report. -/
structure AnalysisStats where
  total_words_analyzed : Nat
  unique_words : Nat
  message_limit : Int
  deriving DecidableEq

/-- One entry of the `top_words` list: word, count, and percentage of the
total analyzed token count. -/
structure TopWordEntry where
  word : String
  count : Nat
  percentage : ℚ
  deriving DecidableEq

/-- The success payload of `get_top_words_in_channel`. -/
structure TopWordsReport where
  channel_id : String
  analysis_stats : AnalysisStats
  top_words : List TopWordEntry
  deriving DecidableEq

/-- `get_top_words_in_channel(channel_id, top_n, message_limit)` on the
successful-fetch path (its `try`/`except` only converts exceptions of the
underlying fetch into a failure dictionary; the body itself is total).
Takes the top `top_n` ranked words and reports each entry's share of the
total token count, rounded to two decimals, with the division guarded by
`total_words > 0`. -/
def get_top_words_in_channel (fetch : HistoryRequest → List SlackMessage)
    (channel_id : String) (top_n : Nat) (message_limit : Int) : TopWordsReport :=
  let word_frequency := analyze_channel_word_frequency fetch channel_id message_limit
  let top_words := word_frequency.take top_n
  let total_words := (word_frequency.map Prod.snd).sum
  let unique_words := word_frequency.length
  ⟨channel_id,
   ⟨total_words, unique_words, message_limit⟩,
   top_words.map (fun wc =>
     ⟨wc.1, wc.2,
      if total_words > 0 then round2 ((wc.2 : ℚ) / (total_words : ℚ) * 100) else 0⟩)⟩

/-! ## The tool layer (`slack-mcp_server.py`) -/

/-- The shape of every tool's return dictionary: either the success dictionary
(`success: True` plus a payload) or the failure dictionary
(`success: False, error: message`). -/
inductive ToolResult (α : Type) where
  | ok (payload : α)
  | err (error : String)
  deriving DecidableEq

/-- The boolean `success` flag of a tool result dictionary. -/
def ToolResult.success {α : Type} : ToolResult α → Bool
  | .ok _ => true
  | .err _ => false

/-- The `error` entry of a tool result dictionary (absent on success). -/
def ToolResult.errorMsg {α : Type} : ToolResult α → Option String
  | .ok _ => none
  | .err e => some e

/-- The fields of the remote `chat.postMessage` response read by the tools. -/
structure SendMessageResponse where
  channel : Option String
  ts : Option String
  deriving DecidableEq

/-- The success payload of `send_slack_message`. -/
structure SendMessagePayload where
  message : String
  channel : Option String
  timestamp : Option String
  text : String
  deriving DecidableEq

/-- The `send_slack_message` tool: `call` is the outcome of
`slack_client.send_message(channel, text)`; any raised exception is converted
into the failure dictionary. -/
def send_slack_message (channel text : String)
    (call : Except String SendMessageResponse) : ToolResult SendMessagePayload :=
  match call with
  | .ok r => .ok ⟨"메시지가 성공적으로 전송되었습니다.", r.channel, r.ts, text⟩
  | .error e => .err ("메시지 전송 실패: " ++ e)

/-- A nested `topic`/`purpose` object of a remote channel. -/
structure TopicField where
  value : Option String
  deriving DecidableEq

/-- A remote channel object, fields as read by the channel tool. -/
structure SlackChannel where
  id : Option String
  name : Option String
  is_private : Option Bool
  is_member : Option Bool
  topic : Option TopicField
  purpose : Option TopicField
  num_members : Option Int
  deriving DecidableEq

/-- The fixed six-plus-one-field channel projection built by
`get_slack_channels`. -/
structure ChannelInfo where
  id : Option String
  name : Option String
  is_private : Bool
  is_member : Bool
  topic : String
  purpose : String
  num_members : Int
  deriving DecidableEq

/-- The per-channel reshaping of `get_slack_channels`. -/
def projectChannel (c : SlackChannel) : ChannelInfo :=
  ⟨c.id, c.name, c.is_private.getD false, c.is_member.getD false,
   ((c.topic.getD ⟨none⟩).value.getD ""),
   ((c.purpose.getD ⟨none⟩).value.getD ""),
   c.num_members.getD 0⟩

/-- The success payload of `get_slack_channels`. -/
structure ChannelsPayload where
  channels : List ChannelInfo
  total_count : Nat
  deriving DecidableEq

/-- The `get_slack_channels` tool: `call` is the outcome of
`slack_client.get_channels()`. -/
def get_slack_channels (call : Except String (List SlackChannel)) :
    ToolResult ChannelsPayload :=
  match call with
  | .ok channels =>
      let channel_list := channels.map projectChannel
      .ok ⟨channel_list, channel_list.length⟩
  | .error e => .err ("채널 목록 조회 실패: " ++ e)

/-- The fixed five-field message projection built by
`get_slack_channel_history`. -/
structure MessageInfo where
  text : String
  user : String
  timestamp : String
  type : String
  subtype : String
  deriving DecidableEq

/-- The per-message reshaping of `get_slack_channel_history`. -/
def projectMessage (m : SlackMessage) : MessageInfo :=
  ⟨m.text.getD "", m.user.getD "", m.ts.getD "", m.type.getD "", m.subtype.getD ""⟩

/-- The success payload of `get_slack_channel_history`. -/
structure HistoryPayload where
  messages : List MessageInfo
  channel_id : String
  message_count : Nat
  deriving DecidableEq

/-- The `get_slack_channel_history` tool: `call` is the outcome of
`slack_client.get_channel_history(channel_id, limit)`. -/
def get_slack_channel_history (channel_id : String)
    (call : Except String (List SlackMessage)) : ToolResult HistoryPayload :=
  match call with
  | .ok msgs =>
      let message_list := msgs.map projectMessage
      .ok ⟨message_list, channel_id, message_list.length⟩
  | .error e => .err ("메시지 히스토리 조회 실패: " ++ e)

/-- The success payload of `send_slack_direct_message`. -/
structure DirectMessagePayload where
  message : String
  user_id : String
  timestamp : Option String
  text : String
  deriving DecidableEq

/-- The `send_slack_direct_message` tool: `call` is the outcome of
`slack_client.send_direct_message(user_id, text)` (which composes
`open_dm_channel` and `send_message`, so `call` covers failures of both). -/
def send_slack_direct_message (user_id text : String)
    (call : Except String SendMessageResponse) : ToolResult DirectMessagePayload :=
  match call with
  | .ok r => .ok ⟨"다이렉트 메시지가 성공적으로 전송되었습니다.", user_id, r.ts, text⟩
  | .error e => .err ("다이렉트 메시지 전송 실패: " ++ e)

/-- The nested `profile` object of a remote user. -/
structure SlackProfile where
  display_name : Option String
  email : Option String
  deriving DecidableEq

/-- A remote user object, fields as read by the user tool. -/
structure SlackUser where
  id : Option String
  name : Option String
  real_name : Option String
  profile : Option SlackProfile
  is_bot : Option Bool
  is_admin : Option Bool
  deleted : Option Bool
  deriving DecidableEq

/-- The fixed user projection built by `get_slack_users`. -/
structure UserInfo where
  id : Option String
  name : Option String
  real_name : String
  display_name : String
  email : String
  is_bot : Bool
  is_admin : Bool
  deriving DecidableEq

/-- The per-user reshaping of `get_slack_users`. -/
def projectUser (u : SlackUser) : UserInfo :=
  ⟨u.id, u.name, u.real_name.getD "",
   ((u.profile.getD ⟨none, none⟩).display_name.getD ""),
   ((u.profile.getD ⟨none, none⟩).email.getD ""),
   u.is_bot.getD false, u.is_admin.getD false⟩

/-- The user loop of `get_slack_users`: project each user that is not
soft-deleted (`if not user.get('deleted', False)`), in order. -/
def build_user_list : List SlackUser → List UserInfo
  | [] => []
  | u :: rest =>
      if !(u.deleted.getD false) then projectUser u :: build_user_list rest
      else build_user_list rest

/-- The success payload of `get_slack_users`. -/
structure UsersPayload where
  users : List UserInfo
  total_count : Nat
  deriving DecidableEq

/-- The `get_slack_users` tool: `call` is the outcome of
`slack_client.get_users()`; `total_count` is the length of the post-filter
list. -/
def get_slack_users (call : Except String (List SlackUser)) : ToolResult UsersPayload :=
  match call with
  | .ok users =>
      let user_list := build_user_list users
      .ok ⟨user_list, user_list.length⟩
  | .error e => .err ("사용자 목록 조회 실패: " ++ e)

/-! ## Concrete inputs used by witnesses and counterexamples -/

/-- The fixed two-message batch `["hello hello world", "world test"]` of plain
human messages. -/
def helloBatch : List SlackMessage :=
  [⟨some "hello hello world", none, none, some "message", none, none⟩,
   ⟨some "world test", none, none, some "message", none, none⟩]

/-- A message whose `bot_id` key is present but holds the empty string: the
key is carried, yet Python's truthiness test `not message.get('bot_id')`
does not skip it. -/
def emptyBotIdMessage : SlackMessage :=
  ⟨some "hello world", none, none, some "message", some "", none⟩

/-- A bot-originated message (non-empty `bot_id`). -/
def botMessage : SlackMessage :=
  ⟨some "hello world", none, none, some "message", some "B0001", none⟩

/-- A join notice: carries a non-empty `subtype`. -/
def joinNoticeMessage : SlackMessage :=
  ⟨some "alice joined the channel", none, none, some "message", none, some "channel_join"⟩

/-- A message with no `text` key. -/
def textlessMessage : SlackMessage :=
  ⟨none, none, none, some "message", none, none⟩

/-- An event whose `type` is not the ordinary message type. -/
def nonMessageTypeEvent : SlackMessage :=
  ⟨some "hello world", none, none, some "file_comment", none, none⟩

/-- A user whose `deleted` flag is `True`. -/
def deletedUser : SlackUser := ⟨some "U1", some "alice", none, none, none, none, some true⟩

/-- A user without a `deleted` key. -/
def plainUserB : SlackUser := ⟨some "U2", some "bob", none, none, none, none, none⟩

/-- Another user without a `deleted` key. -/
def plainUserC : SlackUser := ⟨some "U3", some "carol", none, none, none, none, none⟩

/-! ## Helper lemmas: the tokenizer pipelines agree up to whitespace identity -/

theorem chRel_refl (c : Char) : chRel c c := Or.inl rfl

theorem pySpace_eq_of_chRel {c d : Char} (h : chRel c d) : pySpace c = pySpace d := by
  rcases h with rfl | ⟨h1, h2⟩
  · rfl
  · rw [h1, h2]

theorem chRel_sub (c : Char) : chRel (sub_nonword c) (spec_replace c) := by
  unfold sub_nonword spec_replace pyWordChar
  by_cases hW : (c.isAlphanum || c == '_' || isHangulSyllable c) = true
  · have hS : ((c.isAlphanum || c == '_') || pySpace c || isHangulSyllable c) = true := by
      simp only [Bool.or_eq_true] at hW ⊢
      tauto
    rw [if_pos hS, if_pos hW]
    exact chRel_refl c
  · by_cases hsp : pySpace c = true
    · have hS : ((c.isAlphanum || c == '_') || pySpace c || isHangulSyllable c) = true := by
        simp only [Bool.or_eq_true] at hsp ⊢
        tauto
      rw [if_pos hS, if_neg hW]
      exact Or.inr ⟨hsp, by decide⟩
    · have hS : ¬ (((c.isAlphanum || c == '_') || pySpace c || isHangulSyllable c) = true) := by
        simp only [Bool.or_eq_true] at hW hsp ⊢
        tauto
      rw [if_neg hS, if_neg hW]
      exact chRel_refl ' '

theorem toLower_of_pySpace {c : Char} (h : pySpace c = true) : c.toLower = c := by
  simp only [pySpace, Char.isWhitespace, Bool.or_eq_true, decide_eq_true_eq] at h
  rcases h with ((rfl | rfl) | rfl) | rfl <;> decide

theorem chRel_toLower {c d : Char} (h : chRel c d) : chRel c.toLower d.toLower := by
  rcases h with rfl | ⟨h1, h2⟩
  · exact chRel_refl _
  · rw [toLower_of_pySpace h1, toLower_of_pySpace h2]
    exact Or.inr ⟨h1, h2⟩

theorem forall₂_map_sub_spec (cs : List Char) :
    List.Forall₂ chRel (cs.map sub_nonword) (cs.map spec_replace) := by
  induction cs with
  | nil => exact .nil
  | cons c cs ih => exact .cons (chRel_sub c) ih

theorem forall₂_chRel_map_toLower {l1 l2 : List Char} (h : List.Forall₂ chRel l1 l2) :
    List.Forall₂ chRel (l1.map Char.toLower) (l2.map Char.toLower) := by
  induction h with
  | nil => exact .nil
  | cons hcd _ ih => exact .cons (chRel_toLower hcd) ih

theorem collapseWs_chRel {l1 l2 : List Char} (h : List.Forall₂ chRel l1 l2) :
    ∀ b, List.Forall₂ chRel (collapseWs l1 b) (collapseWs l2 b) := by
  induction h with
  | nil => intro b; exact .nil
  | @cons c d cs ds hcd htl ih =>
    intro b
    have hsp := pySpace_eq_of_chRel hcd
    by_cases hs : pySpace c = true
    · have hd : pySpace d = true := by rw [← hsp]; exact hs
      cases b with
      | true => simpa [collapseWs, hs, hd] using ih true
      | false =>
        simp only [collapseWs, hs, hd, if_pos, if_neg]
        exact .cons (chRel_refl ' ') (ih true)
    · have hd : ¬ pySpace d = true := by rw [← hsp]; exact hs
      simp only [collapseWs, hs, hd, if_neg]
      exact .cons hcd (ih false)

theorem splitWsAux_chRel {l1 l2 : List Char} (h : List.Forall₂ chRel l1 l2) :
    ∀ cur, splitWsAux l1 cur = splitWsAux l2 cur := by
  induction h with
  | nil => intro cur; rfl
  | @cons c d cs ds hcd htl ih =>
    intro cur
    have hsp := pySpace_eq_of_chRel hcd
    by_cases hs : pySpace c = true
    · have hd : pySpace d = true := by rw [← hsp]; exact hs
      simp only [splitWsAux, hs, hd, if_pos]
      rw [ih []]
    · have hcd2 : c = d := by
        rcases hcd with rfl | ⟨h1, _⟩
        · rfl
        · exact absurd h1 hs
      subst hcd2
      simp only [splitWsAux, hs, if_neg]
      exact ih (c :: cur)

/-! ## Helper lemmas: exact rounding of integer-valued rationals -/

theorem fdiv_one (z : ℤ) : Int.fdiv z 1 = z := by
  cases z with
  | ofNat m => cases m <;> simp [Int.fdiv]
  | negSucc m => simp [Int.fdiv]

theorem ratFloor_intCast (z : ℤ) : ratFloor (z : ℚ) = z := by
  simp [ratFloor, fdiv_one]

theorem roundHalfEven_intCast (z : ℤ) : roundHalfEven (z : ℚ) = z := by
  have h0 : ((z : ℚ) - ratFloor (z : ℚ)) = 0 := by
    rw [ratFloor_intCast]; ring
  simp [roundHalfEven, h0, ratFloor_intCast]

theorem round2_int_mul (z : ℤ) (q : ℚ) (h : q * 100 = (z : ℚ)) :
    round2 q = (z : ℚ) / 100 := by
  rw [round2, h, roundHalfEven_intCast]

/-! ## Claim theorems -/

/-- C1: every tool exposed by the server (`send_slack_message`,
`get_slack_channels`, `get_slack_channel_history`,
`send_slack_direct_message`, `get_slack_users`) returns a structured result
carrying a boolean `success` flag for every outcome of the underlying client
call, and for every failure `e` raised by that call the result has
`success = False` and carries the tool's error string built from `e`.  The
tools are total functions of the call outcome, so no exception crosses the
tool boundary. -/
theorem tools_never_propagate_client_failures
    (channel text user_id channel_id e : String)
    (r : SendMessageResponse) (chans : List SlackChannel)
    (msgs : List SlackMessage) (users : List SlackUser) :
    ((send_slack_message channel text (.ok r)).success = true
      ∧ (send_slack_message channel text (.error e)).success = false
      ∧ (send_slack_message channel text (.error e)).errorMsg
          = some ("메시지 전송 실패: " ++ e))
    ∧ ((get_slack_channels (.ok chans)).success = true
      ∧ (get_slack_channels (.error e)).success = false
      ∧ (get_slack_channels (.error e)).errorMsg = some ("채널 목록 조회 실패: " ++ e))
    ∧ ((get_slack_channel_history channel_id (.ok msgs)).success = true
      ∧ (get_slack_channel_history channel_id (.error e)).success = false
      ∧ (get_slack_channel_history channel_id (.error e)).errorMsg
          = some ("메시지 히스토리 조회 실패: " ++ e))
    ∧ ((send_slack_direct_message user_id text (.ok r)).success = true
      ∧ (send_slack_direct_message user_id text (.error e)).success = false
      ∧ (send_slack_direct_message user_id text (.error e)).errorMsg
          = some ("다이렉트 메시지 전송 실패: " ++ e))
    ∧ ((get_slack_users (.ok users)).success = true
      ∧ (get_slack_users (.error e)).success = false
      ∧ (get_slack_users (.error e)).errorMsg = some ("사용자 목록 조회 실패: " ++ e)) :=
  ⟨⟨rfl, rfl, rfl⟩, ⟨rfl, rfl, rfl⟩, ⟨rfl, rfl, rfl⟩, ⟨rfl, rfl, rfl⟩, ⟨rfl, rfl, rfl⟩⟩

/-- C2: for any limit greater than 100 passed to `get_channel_history`, the
limit included in the downstream request data is exactly 100; the clamp is
silent, not an error. -/
theorem history_limit_clamped_to_100 (channel_id : String) (limit : Int)
    (h : limit > 100) :
    (get_channel_history_request channel_id limit).limit = 100 := by
  simp [get_channel_history_request, h]

/-- Witness for C2 at the concrete limit 150. -/
theorem history_limit_clamped_to_100_witness :
    (150 : Int) > 100 ∧ (get_channel_history_request "C123" 150).limit = 100 :=
  ⟨by decide, history_limit_clamped_to_100 "C123" 150 (by decide)⟩

/-- C3: on the fixed batch `["hello hello world", "world test"]` of plain
human messages, the ranked word-frequency output is
`[("hello", 2), ("world", 2), ("test", 1)]` — the tie between `hello` and
`world` ordered by first appearance — and the reported percentages are
40, 40 and 20, summing to 100. -/
theorem hello_batch_ranked_report :
    analyze_channel_word_frequency (fun _ => helloBatch) "C123" 100
      = [("hello", 2), ("world", 2), ("test", 1)]
    ∧ (get_top_words_in_channel (fun _ => helloBatch) "C123" 10 100).top_words
      = [⟨"hello", 2, 40⟩, ⟨"world", 2, 40⟩, ⟨"test", 1, 20⟩]
    ∧ ((get_top_words_in_channel (fun _ => helloBatch) "C123" 10 100).top_words.map
        TopWordEntry.percentage).sum = 100 := by
  have hfreq : analyze_channel_word_frequency (fun _ => helloBatch) "C123" 100
      = [("hello", 2), ("world", 2), ("test", 1)] := by decide
  have h40 : round2 (40 : ℚ) = 40 := by
    rw [round2_int_mul 4000 _ (by norm_num)]; norm_num
  have h20 : round2 (20 : ℚ) = 20 := by
    rw [round2_int_mul 2000 _ (by norm_num)]; norm_num
  have htop : (get_top_words_in_channel (fun _ => helloBatch) "C123" 10 100).top_words
      = [⟨"hello", 2, 40⟩, ⟨"world", 2, 40⟩, ⟨"test", 1, 20⟩] := by
    simp only [get_top_words_in_channel, hfreq]
    norm_num [h40, h20]
  exact ⟨hfreq, htop, by rw [htop]; norm_num⟩

/-- C4: for every input text, the code's tokenizer — which keeps word
characters and whitespace, replaces everything else with a space, collapses
whitespace runs, lower-cases and splits — produces exactly the token list of
the specification's pipeline: replace every character that is not
alphanumeric, underscore, or a Hangul syllable with a space; collapse
repeated whitespace; lower-case; split on whitespace. -/
theorem tokenize_matches_spec (text : String) : tokenize text = spec_tokenize text := by
  unfold tokenize spec_tokenize pySplit
  exact splitWsAux_chRel
    (forall₂_chRel_map_toLower (collapseWs_chRel (forall₂_map_sub_spec text.data) false)) []

/-- C5: for every `message_limit`, the limit the analyzer passes to
`get_channel_history` is `min(message_limit, 100)`, the limit in the
downstream request equals `min(message_limit, 100)` as well, and the analyzer
computes the same result as the variant with its inner 1000-clamp removed —
the inner clamp has no observable effect. -/
theorem analyzer_inner_clamp_has_no_effect (fetch : HistoryRequest → List SlackMessage)
    (channel_id : String) (message_limit : Int) :
    min (if message_limit > 1000 then 1000 else message_limit) 100 = min message_limit 100
    ∧ (get_channel_history_request channel_id
        (min (if message_limit > 1000 then 1000 else message_limit) 100)).limit
      = min message_limit 100
    ∧ analyze_channel_word_frequency fetch channel_id message_limit
      = analyze_channel_word_frequency_noclamp fetch channel_id message_limit := by
  have harg : min (if message_limit > 1000 then 1000 else message_limit) 100
      = min message_limit 100 := by
    split_ifs <;> omega
  refine ⟨harg, ?_, ?_⟩
  · simp only [get_channel_history_request]
    split_ifs <;> omega
  · simp only [analyze_channel_word_frequency, analyze_channel_word_frequency_noclamp,
      get_channel_history, harg]

/-- C6: whenever the total analyzed token count is zero, every percentage in
the top-words report is 0: the division is guarded by the
`total_words > 0` check, so the zero total never reaches a division. -/
theorem zero_total_words_percentages_zero (fetch : HistoryRequest → List SlackMessage)
    (channel_id : String) (top_n : Nat) (message_limit : Int)
    (h : ((analyze_channel_word_frequency fetch channel_id message_limit).map Prod.snd).sum
          = 0) :
    ∀ e ∈ (get_top_words_in_channel fetch channel_id top_n message_limit).top_words,
      e.percentage = 0 := by
  intro e he
  simp only [get_top_words_in_channel, List.mem_map] at he
  obtain ⟨wc, hwc, rfl⟩ := he
  simp [h]

/-- Witness for C6 on an empty history. -/
theorem zero_total_words_percentages_zero_witness :
    (((analyze_channel_word_frequency (fun _ => []) "C123" 100).map Prod.snd).sum = 0)
    ∧ ∀ e ∈ (get_top_words_in_channel (fun _ => []) "C123" 10 100).top_words,
        e.percentage = 0 :=
  ⟨by decide, zero_total_words_percentages_zero (fun _ => []) "C123" 10 100 (by decide)⟩

/-- C7: for a user list with one user whose `deleted` flag is `True` and two
users without the flag, `get_slack_users` reports `total_count = 2` and its
`users` list holds exactly the projections of the two surviving users — no
entry for the deleted one; and in general the loop projects exactly the
non-deleted users, in order, so `total_count` is the post-filter count. -/
theorem deleted_users_filtered_before_projection (u1 u2 u3 : SlackUser)
    (h1 : u1.deleted = some true) (h2 : u2.deleted = none) (h3 : u3.deleted = none) :
    get_slack_users (.ok [u1, u2, u3]) = .ok ⟨[projectUser u2, projectUser u3], 2⟩
    ∧ ∀ users : List SlackUser,
        build_user_list users
          = (users.filter (fun u => !(u.deleted.getD false))).map projectUser := by
  constructor
  · simp [get_slack_users, build_user_list, h1, h2, h3]
  · intro users
    induction users with
    | nil => rfl
    | cons u rest ih =>
      by_cases hu : u.deleted.getD false = true <;>
        simp [build_user_list, hu, ih, List.filter_cons]

/-- Witness for C7 on a concrete three-user list. -/
theorem deleted_users_filtered_before_projection_witness :
    (deletedUser.deleted = some true ∧ plainUserB.deleted = none ∧ plainUserC.deleted = none)
    ∧ (get_slack_users (.ok [deletedUser, plainUserB, plainUserC])
        = .ok ⟨[projectUser plainUserB, projectUser plainUserC], 2⟩
      ∧ ∀ users : List SlackUser,
          build_user_list users
            = (users.filter (fun u => !(u.deleted.getD false))).map projectUser) :=
  ⟨⟨rfl, rfl, rfl⟩,
   deleted_users_filtered_before_projection deletedUser plainUserB plainUserC rfl rfl rfl⟩

/-- C8: for any message text all of whose raw tokens are stop-words or shorter
than two characters, the extracted word list is empty, and so is the
analyzer's word-frequency table for a plain human message carrying that
text. -/
theorem stopword_only_text_yields_empty_table (text : String)
    (h : ∀ w ∈ tokenize text, w.length < 2 ∨ w ∈ stop_words) :
    extract_words_from_text text = []
    ∧ analyze_channel_word_frequency
        (fun _ => [⟨some text, none, none, some "message", none, none⟩]) "C123" 100 = [] := by
  have hextract : extract_words_from_text text = [] := by
    unfold extract_words_from_text
    split_ifs with h0
    · rfl
    · rw [List.filter_eq_nil_iff]
      intro w hw
      rcases h w hw with hlen | hstop
      · simp
        omega
      · have hc : stop_words.contains w = true := List.elem_eq_true_of_mem hstop
        simp [hc]
        exact fun _ => hstop
  have hcollect : collect_words [⟨some text, none, none, some "message", none, none⟩] = [] := by
    simp [collect_words, optTruthy, hextract]
  refine ⟨hextract, ?_⟩
  simp [analyze_channel_word_frequency, get_channel_history, hcollect, counter_items,
    most_common, List.insertionSort]

/-- Witness for C8 on a text made of English stop-words and a one-character
Korean token. -/
theorem stopword_only_text_yields_empty_table_witness :
    (∀ w ∈ tokenize "the of a 은", w.length < 2 ∨ w ∈ stop_words)
    ∧ (extract_words_from_text "the of a 은" = []
      ∧ analyze_channel_word_frequency
          (fun _ => [⟨some "the of a 은", none, none, some "message", none, none⟩])
          "C123" 100 = []) :=
  ⟨by decide, stopword_only_text_yields_empty_table "the of a 은" (by decide)⟩

/-- C9 counterexample: a batch whose single message carries a `bot_id` key
(holding the empty string) yet yields a non-empty frequency table, because the
code tests Python truthiness (`not message.get('bot_id')`), not key presence:
the claim as stated — empty table whenever every message carries a `bot_id` —
is false. -/
theorem all_bot_id_batch_nonempty_table :
    emptyBotIdMessage.bot_id.isSome = true
    ∧ analyze_channel_word_frequency (fun _ => [emptyBotIdMessage]) "C123" 100
        = [("hello", 1), ("world", 1)] := by decide

/-- C9 (amended): for any batch in which every message carries a truthy
(non-empty) `bot_id`, carries a truthy `subtype`, has no `text` key, or has a
`type` other than `'message'`, the analyzer's word-frequency table is empty
regardless of the messages' text content. -/
theorem skipped_messages_empty_table (messages : List SlackMessage)
    (channel_id : String) (limit : Int)
    (h : ∀ m ∈ messages, optTruthy m.bot_id = true ∨ optTruthy m.subtype = true
          ∨ m.text = none ∨ m.type ≠ some "message") :
    analyze_channel_word_frequency (fun _ => messages) channel_id limit = [] := by
  have hcollect : collect_words messages = [] := by
    induction messages with
    | nil => rfl
    | cons m rest ih =>
      have hm := h m (List.mem_cons_self m rest)
      have hrest : collect_words rest = [] :=
        ih (fun x hx => h x (List.mem_cons_of_mem m hx))
      rcases hm with h1 | h1 | h1 | h1 <;> simp [collect_words, h1, hrest]
  simp [analyze_channel_word_frequency, get_channel_history, hcollect, counter_items,
    most_common, List.insertionSort]

/-- Witness for the amended C9 on a batch with one bot message, one join
notice, one textless message and one non-message event. -/
theorem skipped_messages_empty_table_witness :
    (∀ m ∈ [botMessage, joinNoticeMessage, textlessMessage, nonMessageTypeEvent],
      optTruthy m.bot_id = true ∨ optTruthy m.subtype = true
        ∨ m.text = none ∨ m.type ≠ some "message")
    ∧ analyze_channel_word_frequency
        (fun _ => [botMessage, joinNoticeMessage, textlessMessage, nonMessageTypeEvent])
        "C123" 100 = [] :=
  ⟨by decide,
   skipped_messages_empty_table
     [botMessage, joinNoticeMessage, textlessMessage, nonMessageTypeEvent]
     "C123" 100 (by decide)⟩

/-- C10: for any limit at most 100 — including zero and negative values — the
downstream request carries the caller's limit unchanged: no lower-bound
validation happens at the client boundary. -/
theorem history_limit_below_100_unchanged (channel_id : String) (limit : Int)
    (h : limit ≤ 100) :
    (get_channel_history_request channel_id limit).limit = limit := by
  simp [get_channel_history_request]
  omega

/-- Witness for C10 at the concrete limit -5. -/
theorem history_limit_below_100_unchanged_witness :
    (-5 : Int) ≤ 100 ∧ (get_channel_history_request "C123" (-5)).limit = -5 :=
  ⟨by decide, history_limit_below_100_unchanged "C123" (-5) (by decide)⟩
